import Mathlib

/-!
Shallow embedding of the GraphRAG generation gateway.

The repository exposes a generation gateway over two transports:
* a tool-style MCP server (`src/mcp-servers/generation-server/server.py`), and
* a direct HTTP API (`src/simple_generation_server.py`).

Both transports own an `OllamaClient` whose methods build a JSON payload and
issue one HTTP call to the inference backend.  We embed the network as an
explicit parameter: a client method receives the backend as a function from
the payload it would POST to the backend's outcome (`Except String _`, where
`Except.error e` stands for any raised exception with message `e`, covering
connection failure, timeout and `raise_for_status`).  Each embedded method
returns the payload it sent together with its result, so that theorems can
speak about exactly what reached the backend.  Python dictionary lookups with
defaults (`d.get(k, v)`) become `Option.getD`; Python truthiness tests on
optional strings and ints are modelled explicitly.
-/

/-- Python truthiness of an optional string (`if context:` / `if system:`):
`None` and the empty string are falsy, every other string is truthy. -/
def pyTruthyStr : Option String → Bool
  | none => false
  | some s => s != ""

/-- Python truthiness of an optional int (`if max_tokens:`):
`None` and `0` are falsy, every other int is truthy. -/
def pyTruthyInt : Option Int → Bool
  | none => false
  | some n => n != 0

/-- Backend response body of `POST /api/generate`: fields `response`,
`eval_count`, `eval_duration` (nanoseconds), each possibly absent. -/
structure GenResponse where
  response : Option String
  eval_count : Option Nat
  eval_duration : Option Nat
  deriving DecidableEq

/-- A chat message dict `{role, content}`. -/
structure ChatMsg where
  role : String
  content : String
  deriving DecidableEq

/-- Backend response body of `POST /api/chat`: fields `message`,
`eval_count`, `eval_duration` (nanoseconds), each possibly absent. -/
structure ChatResponse where
  message : Option ChatMsg
  eval_count : Option Nat
  eval_duration : Option Nat
  deriving DecidableEq

/-- The nested `options` object of a backend request payload:
`temperature` always present, `num_predict` only when set. -/
structure GenOptions where
  temperature : ℚ
  num_predict : Option Int
  deriving DecidableEq

/-- The JSON payload POSTed to `/api/generate`. -/
structure GeneratePayload where
  model : String
  prompt : String
  stream : Bool
  options : GenOptions
  system : Option String
  deriving DecidableEq

/-- The JSON payload POSTed to `/api/chat`. -/
structure ChatPayload where
  model : String
  messages : List ChatMsg
  stream : Bool
  options : GenOptions
  deriving DecidableEq

/-- One entry of the backend's `GET /api/tags` model list; `.get("name")`
with no default can yield `None`, hence `Option`. -/
structure ModelDescriptor where
  name : Option String
  size : Option Nat
  deriving DecidableEq

/-- Body of the backend's `GET /api/tags` response: `{"models": [...]}`,
where the key may be absent. -/
structure TagsResponse where
  models : Option (List ModelDescriptor)
  deriving DecidableEq

/-- Outcome of a raw HTTP GET: either a response with a status code, or a
raised exception. -/
inductive HttpGetOutcome where
  | ok (status : Nat)
  | exn (msg : String)
  deriving DecidableEq

/-- `OllamaClient.list_models` of the MCP server
(src/mcp-servers/generation-server/server.py, lines 42-51): on success
returns `data.get("models", [])`; on any exception logs and returns `[]`. -/
def mcp_list_models (resp : Except String TagsResponse) : List ModelDescriptor :=
  match resp with
  | .ok data => data.models.getD []
  | .error _ => []

/-- `OllamaClient.list_models` of the direct HTTP server
(src/simple_generation_server.py, lines 46-54): on success returns
`response.json()`; on any exception logs and RE-RAISES (`raise`). -/
def simple_list_models (resp : Except String TagsResponse) : Except String TagsResponse :=
  match resp with
  | .ok data => .ok data
  | .error e => .error e

/-- `OllamaClient.generate` of the MCP server
(src/mcp-servers/generation-server/server.py, lines 53-92).
`full_prompt = prompt; if context: full_prompt = f"Context:\n{context}\n\nQuestion: {prompt}"`;
builds the payload with `stream: False`, `options.temperature`, adds `system`
and `options.num_predict` only when truthy; POSTs it and returns
`result.get("response", "")`, re-raising any exception.
Returns (payload sent to the backend, result). -/
def mcp_generate (backend : GeneratePayload → Except String GenResponse)
    (prompt : String) (model : String) (system : Option String)
    (context : Option String) (temperature : ℚ) (max_tokens : Option Int) :
    GeneratePayload × Except String String :=
  let full_prompt : String :=
    if pyTruthyStr context then
      "Context:\n" ++ context.getD "" ++ "\n\nQuestion: " ++ prompt
    else prompt
  let payload : GeneratePayload :=
    { model := model
      prompt := full_prompt
      stream := false
      options :=
        { temperature := temperature
          num_predict := if pyTruthyInt max_tokens then max_tokens else none }
      system := if pyTruthyStr system then system else none }
  (payload,
    match backend payload with
    | .ok result => .ok (result.response.getD "")
    | .error e => .error e)

/-- `OllamaClient.generate` of the direct HTTP server
(src/simple_generation_server.py, lines 56-93): identical prompt composition
and payload construction, but on success returns the whole `response.json()`;
re-raises any exception. Returns (payload sent to the backend, result). -/
def simple_generate (backend : GeneratePayload → Except String GenResponse)
    (prompt : String) (model : String) (system : Option String)
    (context : Option String) (temperature : ℚ) (max_tokens : Option Int) :
    GeneratePayload × Except String GenResponse :=
  let full_prompt : String :=
    if pyTruthyStr context then
      "Context:\n" ++ context.getD "" ++ "\n\nQuestion: " ++ prompt
    else prompt
  let payload : GeneratePayload :=
    { model := model
      prompt := full_prompt
      stream := false
      options :=
        { temperature := temperature
          num_predict := if pyTruthyInt max_tokens then max_tokens else none }
      system := if pyTruthyStr system then system else none }
  (payload,
    match backend payload with
    | .ok result => .ok result
    | .error e => .error e)

/-- `OllamaClient.chat` of the MCP server
(src/mcp-servers/generation-server/server.py, lines 94-124): builds the chat
payload (`num_predict` only when truthy), POSTs it and returns
`result.get("message", {}).get("content", "")`; re-raises any exception. -/
def mcp_chat (backend : ChatPayload → Except String ChatResponse)
    (messages : List ChatMsg) (model : String) (temperature : ℚ)
    (max_tokens : Option Int) : ChatPayload × Except String String :=
  let payload : ChatPayload :=
    { model := model
      messages := messages
      stream := false
      options :=
        { temperature := temperature
          num_predict := if pyTruthyInt max_tokens then max_tokens else none } }
  (payload,
    match backend payload with
    | .ok result => .ok ((result.message.getD { role := "", content := "" }).content)
    | .error e => .error e)

/-- `OllamaClient.chat` of the direct HTTP server
(src/simple_generation_server.py, lines 95-125): identical payload
construction; on success returns the whole `response.json()`; re-raises. -/
def simple_chat (backend : ChatPayload → Except String ChatResponse)
    (messages : List ChatMsg) (model : String) (temperature : ℚ)
    (max_tokens : Option Int) : ChatPayload × Except String ChatResponse :=
  let payload : ChatPayload :=
    { model := model
      messages := messages
      stream := false
      options :=
        { temperature := temperature
          num_predict := if pyTruthyInt max_tokens then max_tokens else none } }
  (payload,
    match backend payload with
    | .ok result => .ok result
    | .error e => .error e)

/-- `OllamaClient.check_health` of the MCP server
(src/mcp-servers/generation-server/server.py, lines 125-131): GETs
`/api/version` and returns `response.status_code == 200`; any exception
yields `False`.  Total by construction: it never raises. -/
def mcp_check_health (resp : HttpGetOutcome) : Bool :=
  match resp with
  | .ok status => status == 200
  | .exn _ => false

/-- `OllamaClient.check_health` of the direct HTTP server
(src/simple_generation_server.py, lines 126-132): textually identical to the
MCP version. -/
def simple_check_health (resp : HttpGetOutcome) : Bool :=
  match resp with
  | .ok status => status == 200
  | .exn _ => false

/-- One MCP `TextContent` item (`{"type": "text", "text": ...}`). -/
structure TextContent where
  type : String
  text : String
  deriving DecidableEq

/-- The `arguments` dict of an MCP `call_tool` request, with each key the
handler reads modelled as an optional field (absent key = `none`). -/
structure ToolArgs where
  prompt : Option String
  model : Option String
  max_tokens : Option Int
  temperature : Option ℚ
  context : Option String
  system_prompt : Option String
  messages : Option (List ChatMsg)
  deriving DecidableEq

/-- The `generate_text` branch of `handle_call_tool`
(src/mcp-servers/generation-server/server.py, lines 261-291): reads each
argument with `.get` (prompt defaults to `""`, model to `"llama3.2:latest"`,
temperature to `0.7`), calls `ollama.generate` unconditionally, and returns
`[TextContent(type="text", text=result)]`, or, when the client raised,
`[TextContent(type="text", text=f"Generation failed: {e}")]`.
Returns (payload the client sent to the backend, tool response). -/
def handle_generate_text (backend : GeneratePayload → Except String GenResponse)
    (arguments : ToolArgs) : Option GeneratePayload × List TextContent :=
  let prompt := arguments.prompt.getD ""
  let model := arguments.model.getD "llama3.2:latest"
  let max_tokens := arguments.max_tokens
  let temperature := arguments.temperature.getD (7 / 10)
  let context := arguments.context
  let system_prompt := arguments.system_prompt
  let res := mcp_generate backend prompt model system_prompt context temperature max_tokens
  (some res.1,
    match res.2 with
    | .ok result => [{ type := "text", text := result }]
    | .error e => [{ type := "text", text := "Generation failed: " ++ e }])

/-- The `chat_completion` branch of `handle_call_tool`
(src/mcp-servers/generation-server/server.py, lines 293-316): messages
default to `[]`, model/temperature as above; calls `ollama.chat`
unconditionally; exceptions map to `f"Chat completion failed: {e}"`. -/
def handle_chat_completion (backend : ChatPayload → Except String ChatResponse)
    (arguments : ToolArgs) : Option ChatPayload × List TextContent :=
  let messages := arguments.messages.getD []
  let model := arguments.model.getD "llama3.2:latest"
  let temperature := arguments.temperature.getD (7 / 10)
  let max_tokens := arguments.max_tokens
  let res := mcp_chat backend messages model temperature max_tokens
  (some res.1,
    match res.2 with
    | .ok result => [{ type := "text", text := result }]
    | .error e => [{ type := "text", text := "Chat completion failed: " ++ e }])

/-- An inbound `/generate` body before validation: every field optional,
mirroring an arbitrary JSON object restricted to the declared keys. -/
structure RawGenerateBody where
  prompt : Option String
  model : Option String
  temperature : Option ℚ
  max_tokens : Option Int
  context : Option String
  system_prompt : Option String
  deriving DecidableEq

/-- The validated pydantic model `GenerateRequest`
(src/simple_generation_server.py, lines 21-27). -/
structure GenerateRequest where
  prompt : String
  model : String
  temperature : ℚ
  max_tokens : Option Int
  context : Option String
  system_prompt : Option String
  deriving DecidableEq

/-- FastAPI/pydantic validation of `GenerateRequest`
(src/simple_generation_server.py, lines 21-27): `prompt: str` has no default,
so a body without it is rejected with a validation error before the endpoint
function runs; every other field has a declared default
(`model = "llama3.2:latest"`, `temperature = 0.7`, rest `None`). -/
def parseGenerateRequest (body : RawGenerateBody) : Except String GenerateRequest :=
  match body.prompt with
  | none => .error "field required: prompt"
  | some p =>
    .ok { prompt := p
          model := body.model.getD "llama3.2:latest"
          temperature := body.temperature.getD (7 / 10)
          max_tokens := body.max_tokens
          context := body.context
          system_prompt := body.system_prompt }

/-- An inbound `/chat` body before validation. -/
structure RawChatBody where
  messages : Option (List ChatMsg)
  model : Option String
  temperature : Option ℚ
  max_tokens : Option Int
  deriving DecidableEq

/-- The validated pydantic model `ChatRequest`
(src/simple_generation_server.py, lines 33-37). -/
structure ChatRequest where
  messages : List ChatMsg
  model : String
  temperature : ℚ
  max_tokens : Option Int
  deriving DecidableEq

/-- FastAPI/pydantic validation of `ChatRequest`
(src/simple_generation_server.py, lines 33-37): `messages` is required,
the rest defaulted. -/
def parseChatRequest (body : RawChatBody) : Except String ChatRequest :=
  match body.messages with
  | none => .error "field required: messages"
  | some ms =>
    .ok { messages := ms
          model := body.model.getD "llama3.2:latest"
          temperature := body.temperature.getD (7 / 10)
          max_tokens := body.max_tokens }

/-- Outcome of a direct-transport endpoint: a successful JSON body, or an
`HTTPException(status_code, detail)`. -/
inductive HttpResult (α : Type) where
  | ok (value : α)
  | httpError (status : Nat) (detail : String)
  deriving DecidableEq

/-- The JSON body returned by `POST /generate`
(src/simple_generation_server.py, lines 193-198). -/
structure GenerateEndpointResponse where
  text : String
  model : String
  eval_count : Nat
  eval_duration_ms : ℚ
  deriving DecidableEq

/-- The `/generate` endpoint `generate_text`
(src/simple_generation_server.py, lines 180-201), composed with request
validation: on a validated request it calls `ollama.generate` and maps the
result to `{text: result.get("response", ""), model, eval_count:
result.get("eval_count", 0), eval_duration_ms: result.get("eval_duration", 0)
/ 1e6}`; any exception becomes
`HTTPException(500, f"Generation failed: {e}")`.
Returns (payload the client sent to the backend, endpoint outcome). -/
def post_generate (backend : GeneratePayload → Except String GenResponse)
    (body : RawGenerateBody) :
    Option GeneratePayload × HttpResult GenerateEndpointResponse :=
  match parseGenerateRequest body with
  | .error e => (none, .httpError 422 e)
  | .ok req =>
    let res := simple_generate backend req.prompt req.model req.system_prompt
      req.context req.temperature req.max_tokens
    (some res.1,
      match res.2 with
      | .ok result =>
        .ok { text := result.response.getD ""
              model := req.model
              eval_count := result.eval_count.getD 0
              eval_duration_ms := (result.eval_duration.getD 0 : ℚ) / 1000000 }
      | .error e => .httpError 500 ("Generation failed: " ++ e))

/-- The JSON body returned by `POST /chat`
(src/simple_generation_server.py, lines 215-220). -/
structure ChatEndpointResponse where
  message : ChatMsg
  model : String
  eval_count : Nat
  eval_duration_ms : ℚ
  deriving DecidableEq

/-- The `/chat` endpoint `chat_completion`
(src/simple_generation_server.py, lines 203-225), composed with request
validation: maps the result to `{message: result.get("message", {}), model,
eval_count, eval_duration_ms: result.get("eval_duration", 0) / 1e6}`; any
exception becomes `HTTPException(500, f"Chat completion failed: {e}")`. -/
def post_chat (backend : ChatPayload → Except String ChatResponse)
    (body : RawChatBody) : Option ChatPayload × HttpResult ChatEndpointResponse :=
  match parseChatRequest body with
  | .error e => (none, .httpError 422 e)
  | .ok req =>
    let res := simple_chat backend req.messages req.model req.temperature
      req.max_tokens
    (some res.1,
      match res.2 with
      | .ok result =>
        .ok { message := result.message.getD { role := "", content := "" }
              model := req.model
              eval_count := result.eval_count.getD 0
              eval_duration_ms := (result.eval_duration.getD 0 : ℚ) / 1000000 }
      | .error e => .httpError 500 ("Chat completion failed: " ++ e))

/-- The JSON body returned by `GET /models`
(src/simple_generation_server.py, lines 169-178). -/
structure ModelsEndpointResponse where
  models : List (Option String)
  count : Nat
  deriving DecidableEq

/-- The `/models` endpoint `list_models`
(src/simple_generation_server.py, lines 169-178): calls the client's
`list_models`; on success returns `{models: [m.get("name") for m in models],
count: len(models)}`; an exception (re-raised by the client) becomes
`HTTPException(500, f"Failed to list models: {e}")`. -/
def get_models (resp : Except String TagsResponse) : HttpResult ModelsEndpointResponse :=
  match simple_list_models resp with
  | .ok models_response =>
    let models := models_response.models.getD []
    .ok { models := models.map (fun m => m.name), count := models.length }
  | .error e => .httpError 500 ("Failed to list models: " ++ e)

/-- C1: for every generation request with a non-empty context string `C` and
prompt `P`, the composed prompt text sent to the backend equals exactly
`"Context:\n" ++ C ++ "\n\nQuestion: " ++ P`, in both transports' clients. -/
theorem claimC1_context_template
    (bk1 bk2 : GeneratePayload → Except String GenResponse)
    (P C model : String) (system : Option String) (temperature : ℚ)
    (max_tokens : Option Int) (hC : C ≠ "") :
    (mcp_generate bk1 P model system (some C) temperature max_tokens).1.prompt
        = "Context:\n" ++ C ++ "\n\nQuestion: " ++ P
    ∧ (simple_generate bk2 P model system (some C) temperature max_tokens).1.prompt
        = "Context:\n" ++ C ++ "\n\nQuestion: " ++ P := by
  constructor <;> simp [mcp_generate, simple_generate, pyTruthyStr, hC]

/-- Witness for C1 at concrete inputs. -/
theorem claimC1_witness :
    (mcp_generate (fun _ => Except.error "down") "P" "m" none (some "C")
        (7 / 10) none).1.prompt = "Context:\n" ++ "C" ++ "\n\nQuestion: " ++ "P"
    ∧ (simple_generate (fun _ => Except.error "down") "P" "m" none (some "C")
        (7 / 10) none).1.prompt = "Context:\n" ++ "C" ++ "\n\nQuestion: " ++ "P" :=
  claimC1_context_template _ _ "P" "C" "m" none (7 / 10) none (by decide)

/-- C2: for every generation request in which the context field is absent
(`None`), the composed prompt text sent to the backend equals the original
prompt unchanged, in both transports' clients. -/
theorem claimC2_identity_law
    (bk1 bk2 : GeneratePayload → Except String GenResponse)
    (P model : String) (system : Option String) (temperature : ℚ)
    (max_tokens : Option Int) :
    (mcp_generate bk1 P model system none temperature max_tokens).1.prompt = P
    ∧ (simple_generate bk2 P model system none temperature max_tokens).1.prompt = P := by
  constructor <;> rfl

/-- C9: for every generation request whose context field is the empty string
(rather than absent), both transports compose the prompt as if context were
absent: the final prompt equals the original prompt and the Context template
is not applied (Python `if context:` is false on `""`). -/
theorem claimC9_empty_context_identity
    (bk1 bk2 : GeneratePayload → Except String GenResponse)
    (P model : String) (system : Option String) (temperature : ℚ)
    (max_tokens : Option Int) :
    (mcp_generate bk1 P model system (some "") temperature max_tokens).1.prompt = P
    ∧ (simple_generate bk2 P model system (some "") temperature max_tokens).1.prompt = P := by
  constructor <;> rfl

/-- C10: for every generate or chat call in which `max_tokens` is `0` (or the
other falsy value, `None`), both transports omit `num_predict` from the
options of the payload sent to the backend, treating the request as if
`max_tokens` were unset. -/
theorem claimC10_falsy_max_tokens
    (bk1 bk2 : GeneratePayload → Except String GenResponse)
    (bk3 bk4 : ChatPayload → Except String ChatResponse)
    (P model : String) (system context : Option String) (temperature : ℚ)
    (ms : List ChatMsg) :
    (mcp_generate bk1 P model system context temperature (some 0)).1.options.num_predict = none
    ∧ (simple_generate bk2 P model system context temperature (some 0)).1.options.num_predict = none
    ∧ (mcp_chat bk3 ms model temperature (some 0)).1.options.num_predict = none
    ∧ (simple_chat bk4 ms model temperature (some 0)).1.options.num_predict = none
    ∧ (mcp_generate bk1 P model system context temperature none).1.options.num_predict = none
    ∧ (simple_generate bk2 P model system context temperature none).1.options.num_predict = none
    ∧ (mcp_chat bk3 ms model temperature none).1.options.num_predict = none
    ∧ (simple_chat bk4 ms model temperature none).1.options.num_predict = none := by
  refine ⟨?_, ?_, ?_, ?_, ?_, ?_, ?_, ?_⟩ <;>
    simp [mcp_generate, simple_generate, mcp_chat, simple_chat, pyTruthyInt]

/-- C3 counterexample: a tool-style `generate_text` call whose required
`prompt` field is missing is NOT rejected: `handle_call_tool` substitutes the
default `""` and a request is issued to the Backend Client (the payload
actually sent is exhibited), refuting "rejected with a validation failure
before any request is issued to the Backend Client". -/
theorem claimC3_counterexample :
    (handle_generate_text (fun _ => Except.error "unreachable")
      { prompt := none, model := none, max_tokens := none, temperature := none,
        context := none, system_prompt := none, messages := none }).1
    = some
      { model := "llama3.2:latest", prompt := "", stream := false,
        options := { temperature := 7 / 10, num_predict := none },
        system := none } := rfl

/-- C3 amended: only the direct transport rejects a request missing its
required field (`prompt` for generate, `messages` for chat), via request-model
validation, before any backend request is issued; the tool-style transport
performs no such validation — it substitutes empty defaults for missing
fields and always issues the backend request — and empty values (empty
prompt, empty messages list) are forwarded to the backend by both
transports. -/
theorem claimC3_amended
    (bkg : GeneratePayload → Except String GenResponse)
    (bkc : ChatPayload → Except String ChatResponse)
    (model : Option String) (temperature : Option ℚ) (max_tokens : Option Int)
    (context system_prompt : Option String) (messages : Option (List ChatMsg)) :
    post_generate bkg
      { prompt := none, model := model, temperature := temperature,
        max_tokens := max_tokens, context := context,
        system_prompt := system_prompt }
      = (none, .httpError 422 "field required: prompt")
    ∧ post_chat bkc
      { messages := none, model := model, temperature := temperature,
        max_tokens := max_tokens }
      = (none, .httpError 422 "field required: messages")
    ∧ ((handle_generate_text bkg
      { prompt := none, model := model, max_tokens := max_tokens,
        temperature := temperature, context := context,
        system_prompt := system_prompt, messages := messages }).1).isSome = true
    ∧ ((handle_chat_completion bkc
      { prompt := none, model := model, max_tokens := max_tokens,
        temperature := temperature, context := context,
        system_prompt := system_prompt, messages := none }).1).isSome = true
    ∧ ((post_generate bkg
      { prompt := some "", model := model, temperature := temperature,
        max_tokens := max_tokens, context := context,
        system_prompt := system_prompt }).1).isSome = true
    ∧ ((post_chat bkc
      { messages := some [], model := model, temperature := temperature,
        max_tokens := max_tokens }).1).isSome = true :=
  ⟨rfl, rfl, rfl, rfl, rfl, rfl⟩

/-- C4 counterexample: the direct transport's backing client
(`OllamaClient.list_models` in src/simple_generation_server.py) does NOT
return an empty sequence on transport failure — it re-raises the exception,
refuting "returns an empty sequence and never raises, on both transports'
backing clients". -/
theorem claimC4_counterexample :
    simple_list_models (Except.error "connection refused")
      = Except.error "connection refused" := rfl

/-- C4 amended: on transport failure, the tool-style transport's backing
client returns an empty sequence without raising, but the direct transport's
backing client re-raises the failure, which the `/models` endpoint then
converts into a 500 error response. -/
theorem claimC4_amended (e : String) :
    mcp_list_models (Except.error e) = []
    ∧ simple_list_models (Except.error e) = Except.error e
    ∧ get_models (Except.error e)
        = HttpResult.httpError 500 ("Failed to list models: " ++ e) :=
  ⟨rfl, rfl, rfl⟩

/-- C5 counterexample: the tool-style transport performs no duration
conversion at all — its response to a `generate_text` call is unchanged when
the backend's `eval_duration` changes from `2000000` to `0`, and consists
only of the generated text — refuting "this conversion is performed
consistently by both transports". -/
theorem claimC5_counterexample :
    handle_generate_text
      (fun _ => Except.ok
        { response := some "hi", eval_count := some 5,
          eval_duration := some 2000000 })
      { prompt := some "q", model := none, max_tokens := none,
        temperature := none, context := none, system_prompt := none,
        messages := none }
      = handle_generate_text
        (fun _ => Except.ok
          { response := some "hi", eval_count := some 5,
            eval_duration := some 0 })
        { prompt := some "q", model := none, max_tokens := none,
          temperature := none, context := none, system_prompt := none,
          messages := none }
    ∧ (handle_generate_text
      (fun _ => Except.ok
        { response := some "hi", eval_count := some 5,
          eval_duration := some 2000000 })
      { prompt := some "q", model := none, max_tokens := none,
        temperature := none, context := none, system_prompt := none,
        messages := none }).2
      = [{ type := "text", text := "hi" }] :=
  ⟨rfl, rfl⟩

/-- C5 amended: the direct transport reports
`eval_duration_ms = eval_duration / 1e6` exactly, for both `/generate` and
`/chat` (so `eval_duration = 2000000` ns yields `eval_duration_ms = 2` ms,
see the last conjunct); the tool-style transport returns only the generated
text and reports no duration. -/
theorem claimC5_amended (d : Nat) (resp : Option String) (cnt : Option Nat)
    (P : String) (ms : List ChatMsg) :
    (∃ r, (post_generate
      (fun _ => Except.ok
        { response := resp, eval_count := cnt, eval_duration := some d })
      { prompt := some P, model := none, temperature := none,
        max_tokens := none, context := none, system_prompt := none }).2
      = .ok r ∧ r.eval_duration_ms = (d : ℚ) / 1000000)
    ∧ (∃ r, (post_chat
      (fun _ => Except.ok
        { message := none, eval_count := cnt, eval_duration := some d })
      { messages := some ms, model := none, temperature := none,
        max_tokens := none }).2
      = .ok r ∧ r.eval_duration_ms = (d : ℚ) / 1000000)
    ∧ (post_generate
      (fun _ => Except.ok
        { response := some "hi", eval_count := some 5,
          eval_duration := some 2000000 })
      { prompt := some P, model := none, temperature := none,
        max_tokens := none, context := none, system_prompt := none }).2
      = .ok
        { text := "hi", model := "llama3.2:latest", eval_count := 5,
          eval_duration_ms := 2 } := by
  refine ⟨⟨_, rfl, rfl⟩, ⟨_, rfl, rfl⟩, ?_⟩
  have h2 : (2000000 : ℚ) / 1000000 = 2 := by norm_num
  simp [post_generate, parseGenerateRequest, simple_generate, pyTruthyStr,
    pyTruthyInt, h2]

/-- C6: for every generate or chat call during which the backend fails, the
tool-style transport returns a successful protocol-level response (a normal
`TextContent` list, no exception) whose text payload states the failure
reason, while the direct transport returns a transport-level error status
(500) whose detail field contains the failure reason; neither transport
swallows the failure silently. -/
theorem claimC6_failure_reporting (e : String) (arguments : ToolArgs)
    (P : String) (ms : List ChatMsg) (model : Option String)
    (temperature : Option ℚ) (max_tokens : Option Int)
    (context system_prompt : Option String) :
    (handle_generate_text (fun _ => Except.error e) arguments).2
      = [{ type := "text", text := "Generation failed: " ++ e }]
    ∧ (handle_chat_completion (fun _ => Except.error e) arguments).2
      = [{ type := "text", text := "Chat completion failed: " ++ e }]
    ∧ (post_generate (fun _ => Except.error e)
      { prompt := some P, model := model, temperature := temperature,
        max_tokens := max_tokens, context := context,
        system_prompt := system_prompt }).2
      = HttpResult.httpError 500 ("Generation failed: " ++ e)
    ∧ (post_chat (fun _ => Except.error e)
      { messages := some ms, model := model, temperature := temperature,
        max_tokens := max_tokens }).2
      = HttpResult.httpError 500 ("Chat completion failed: " ++ e) :=
  ⟨rfl, rfl, rfl, rfl⟩

/-- C7: `check_health` (identical in both transports) is true only if the
version/ping call answered with a successful (2xx) status — in fact exactly
status 200; any raised exception (network error, timeout) yields false, and
a non-success status yields false.  Both embeddings are total functions into
`Bool`, so neither ever raises. -/
theorem claimC7_check_health :
    (∀ s : Nat, mcp_check_health (.ok s) = true → 200 ≤ s ∧ s < 300)
    ∧ (∀ s : Nat, simple_check_health (.ok s) = true → 200 ≤ s ∧ s < 300)
    ∧ (∀ m : String,
        mcp_check_health (.exn m) = false ∧ simple_check_health (.exn m) = false)
    ∧ (∀ s : Nat, s < 200 ∨ 300 ≤ s →
        mcp_check_health (.ok s) = false ∧ simple_check_health (.ok s) = false) := by
  refine ⟨?_, ?_, fun m => ⟨rfl, rfl⟩, ?_⟩
  · intro s hs
    have h : s = 200 := by simpa [mcp_check_health] using hs
    omega
  · intro s hs
    have h : s = 200 := by simpa [simple_check_health] using hs
    omega
  · intro s hs
    have h : s ≠ 200 := by omega
    constructor <;> simp [mcp_check_health, simple_check_health, h]

/-- Witness for C7 at concrete inputs: status 200 is successful, an
exception yields false, status 404 yields false. -/
theorem claimC7_witness :
    (200 ≤ 200 ∧ 200 < 300)
    ∧ (mcp_check_health (.exn "timeout") = false
        ∧ simple_check_health (.exn "timeout") = false)
    ∧ (mcp_check_health (.ok 404) = false
        ∧ simple_check_health (.ok 404) = false) :=
  ⟨claimC7_check_health.1 200 (by decide),
   claimC7_check_health.2.2.1 "timeout",
   claimC7_check_health.2.2.2 404 (Or.inr (by norm_num))⟩

/-- C8: transport equivalence.  For equivalent generate (resp. chat) inputs
and a fixed deterministic backend response, both transports send the same
payload to the backend and return equivalent output to the caller: the
tool-style text equals the `text` field of the direct `/generate` body
(namely `response.get("response", "")`), and the tool-style chat text equals
the `content` of the `message` object in the direct `/chat` body. -/
theorem claimC8_transport_equivalence
    (r : GenResponse) (cr : ChatResponse) (P model : String) (temperature : ℚ)
    (max_tokens : Option Int) (context system_prompt : Option String)
    (ms : List ChatMsg) :
    (handle_generate_text (fun _ => Except.ok r)
      { prompt := some P, model := some model, max_tokens := max_tokens,
        temperature := some temperature, context := context,
        system_prompt := system_prompt, messages := none }).1
      = (post_generate (fun _ => Except.ok r)
      { prompt := some P, model := some model, temperature := some temperature,
        max_tokens := max_tokens, context := context,
        system_prompt := system_prompt }).1
    ∧ (handle_generate_text (fun _ => Except.ok r)
      { prompt := some P, model := some model, max_tokens := max_tokens,
        temperature := some temperature, context := context,
        system_prompt := system_prompt, messages := none }).2
      = [{ type := "text", text := r.response.getD "" }]
    ∧ (∃ out, (post_generate (fun _ => Except.ok r)
      { prompt := some P, model := some model, temperature := some temperature,
        max_tokens := max_tokens, context := context,
        system_prompt := system_prompt }).2
      = .ok out ∧ out.text = r.response.getD "")
    ∧ (handle_chat_completion (fun _ => Except.ok cr)
      { prompt := none, model := some model, max_tokens := max_tokens,
        temperature := some temperature, context := none,
        system_prompt := none, messages := some ms }).1
      = (post_chat (fun _ => Except.ok cr)
      { messages := some ms, model := some model,
        temperature := some temperature, max_tokens := max_tokens }).1
    ∧ (handle_chat_completion (fun _ => Except.ok cr)
      { prompt := none, model := some model, max_tokens := max_tokens,
        temperature := some temperature, context := none,
        system_prompt := none, messages := some ms }).2
      = [{ type := "text",
           text := (cr.message.getD { role := "", content := "" }).content }]
    ∧ (∃ out, (post_chat (fun _ => Except.ok cr)
      { messages := some ms, model := some model,
        temperature := some temperature, max_tokens := max_tokens }).2
      = .ok out
      ∧ out.message.content
          = (cr.message.getD { role := "", content := "" }).content) :=
  ⟨rfl, rfl, ⟨_, rfl, rfl⟩, rfl, rfl, ⟨_, rfl, rfl⟩⟩
